import Mathlib

/-!
Verification of the order-tracking and review handlers.

The two source files are shallowly embedded as pure Lean functions:

* `MM.webhookHandler` embeds the webhook handler (the carrier status-update
  endpoint).  The parsed request body, the content of the order-store file
  (as `Option`, `none` standing for an unreadable file) and the current
  wall-clock time are inputs; the response and the (optional) file write are
  outputs.
* `MM.submitReviewHandler` embeds the review handler
  (`src/netlify/functions/submit-review.ts`) in the same style; the generated
  review identifier is a further input, since it is produced from the clock
  and a random suffix.

JavaScript dynamic values are modelled with `Option`: a field that may be
absent from a record or payload is `Option`-typed, and JavaScript truthiness
of strings (`undefined` and `""` are falsy) is captured by `jsTruthy` /
`jsOrD`.  Ratings are modelled by `ℚ`, since JavaScript numbers are not
integers and the handler compares them only by order.  Timestamps remain
strings (ISO-8601 strings compare lexicographically in time order), with the
clock passed in explicitly.
-/

namespace MM

/-- JavaScript truthiness of a possibly-absent string:
`undefined` and `""` are falsy, every other string is truthy. -/
def jsTruthy : Option String → Bool
  | none => false
  | some s => !s.isEmpty

/-- JavaScript truthiness of a possibly-absent number:
`undefined` and `0` are falsy. -/
def ratTruthy : Option ℚ → Bool
  | none => false
  | some q => decide (q ≠ 0)

/-- JavaScript `a || d` for a possibly-absent string `a` and a string
default `d`: the default is used when `a` is absent or empty. -/
def jsOrD : Option String → String → String
  | none, d => d
  | some s, d => if s.isEmpty then d else s

/-- JavaScript `a || undefined` for a possibly-absent string:
collapses an empty string to absence. -/
def jsOrNone : Option String → Option String
  | none => none
  | some s => if s.isEmpty then none else some s

/-- JavaScript `s.toLowerCase()`, modelled character-wise. -/
def jsToLower (s : String) : String :=
  String.mk (s.data.map Char.toLower)

/-- JavaScript `s.trim()`: surrounding whitespace removed from both ends. -/
def jsTrim (s : String) : String :=
  String.mk (((s.data.dropWhile Char.isWhitespace).reverse.dropWhile
    Char.isWhitespace).reverse)

/-- One tracking update, as pushed onto `trackingUpdates` by the webhook
handler.  Only `status` is always a string; every other field is copied
verbatim from the (optional) payload fields. -/
structure TrackingUpdate where
  status : String
  previousStatus : Option String
  updatedAt : Option String
  deliveryDate : Option String
  remarks : Option String
  location : Option String
  deriving Repr, DecidableEq

/-- An item of an order, as far as the handlers look at it:
the review handler reads `order.items[0]?.name`. -/
structure OrderItem where
  name : Option String
  deriving Repr, DecidableEq

/-- An order record of the order store.  Orders are created by an external
process, so every field the handlers read may be absent; absent boolean
fields are falsy, hence `canReview` and `hasReview` are plain `Bool` with
`false` for absent. -/
structure Order where
  status : Option String
  lastUpdated : Option String
  trackingUpdates : Option (List TrackingUpdate)
  deliveredAt : Option String
  canReview : Bool
  hasReview : Bool
  reviewId : Option String
  customerName : Option String
  items : Option (List OrderItem)
  deriving Repr, DecidableEq

/-- The order store: the JSON object of `data/orders.json`, a mapping from
order number to order record (keys are unique in a JSON object; lookup
returns the first match). -/
abbrev OrderStore := List (String × Order)

/-- Object-key lookup `orders[k]`. -/
def lookupOrder : OrderStore → String → Option Order
  | [], _ => none
  | p :: rest, k => if p.1 = k then some p.2 else lookupOrder rest k

/-- In-place mutation of the record at key `k`: every entry with key `k`
is replaced by `o`, all other entries are untouched. -/
def setOrder (os : OrderStore) (k : String) (o : Order) : OrderStore :=
  os.map fun p => if p.1 = k then (k, o) else p

/-- The parsed webhook request body (`WebhookPayload` in the source); every
field may be absent since the body is arbitrary JSON. -/
structure WebhookPayload where
  awb_number : Option String
  order_number : Option String
  current_status : Option String
  previous_status : Option String
  updated_at : Option String
  delivery_date : Option String
  remarks : Option String
  location : Option String
  deriving Repr, DecidableEq

/-- Outcome of one webhook-handler invocation: HTTP status, the `error`
field of the JSON response when there is one, the full content written to
the order-store file (`none` when the handler returns without writing),
and the `order_number` / `new_status` fields echoed on success. -/
structure WebhookResult where
  statusCode : Nat
  errorMsg : Option String
  savedOrders : Option OrderStore
  order_number : Option String
  new_status : Option String
  deriving Repr, DecidableEq

/-- The tracking update pushed by the webhook handler, built from the
event fields; missing optional fields are stored as absent. -/
def newTrackingUpdate (p : WebhookPayload) : TrackingUpdate :=
  { status := p.current_status.getD ""
    previousStatus := p.previous_status
    updatedAt := p.updated_at
    deliveryDate := p.delivery_date
    remarks := p.remarks
    location := p.location }

/-- The mutation the webhook handler applies to the located order:
overwrite `status`, refresh `lastUpdated`, append the tracking update
(initialising `trackingUpdates` to `[]` when absent), and, when the new
status lower-cases to `"delivered"`, set `deliveredAt` (to the payload's
delivery date, or `now` when that is absent or empty) and `canReview`. -/
def webhookUpdateOrder (p : WebhookPayload) (now : String) (order : Order) : Order :=
  let currentStatus := p.current_status.getD ""
  let updated :=
    { order with
        status := some currentStatus
        lastUpdated := some now
        trackingUpdates :=
          some (order.trackingUpdates.getD [] ++ [newTrackingUpdate p]) }
  if jsToLower currentStatus = "delivered" then
    { updated with
        deliveredAt := some (jsOrD p.delivery_date now)
        canReview := true }
  else updated

/-- The webhook handler.  `m` is the HTTP method, `p` the parsed body,
`ordersFile` the content of `data/orders.json` (`none` when the file cannot
be read or parsed) and `now` the current time (`new Date().toISOString()`).
Mirrors the source handler branch for branch. -/
def webhookHandler (m : String) (p : WebhookPayload)
    (ordersFile : Option OrderStore) (now : String) : WebhookResult :=
  if m = "OPTIONS" then
    { statusCode := 200, errorMsg := none, savedOrders := none
      order_number := none, new_status := none }
  else if m ≠ "POST" then
    { statusCode := 405, errorMsg := some "Method not allowed"
      savedOrders := none, order_number := none, new_status := none }
  else if !jsTruthy p.order_number || !jsTruthy p.current_status then
    { statusCode := 400, errorMsg := some "Missing required webhook data"
      savedOrders := none, order_number := none, new_status := none }
  else
    match ordersFile with
    | none =>
      { statusCode := 404, errorMsg := some "Orders file not found"
        savedOrders := none, order_number := none, new_status := none }
    | some orders =>
      let orderNumber := p.order_number.getD ""
      match lookupOrder orders orderNumber with
      | none =>
        { statusCode := 404, errorMsg := some "Order not found"
          savedOrders := none, order_number := none, new_status := none }
      | some order =>
        { statusCode := 200
          errorMsg := none
          savedOrders :=
            some (setOrder orders orderNumber (webhookUpdateOrder p now order))
          order_number := some orderNumber
          new_status := some (p.current_status.getD "") }

/-- The parsed review request body (`ReviewRequest` in the source). -/
structure ReviewRequest where
  orderId : Option String
  rating : Option ℚ
  comment : Option String
  imageUrl : Option String
  customerName : Option String
  productName : Option String
  deriving Repr, DecidableEq

/-- A stored review record (`Review` in the source). -/
structure Review where
  id : String
  orderId : String
  rating : ℚ
  comment : String
  imageUrl : Option String
  customerName : String
  productName : String
  createdAt : String
  verified : Bool
  deriving Repr, DecidableEq

/-- The review store: the JSON array of `data/reviews.json`. -/
abbrev ReviewStore := List Review

/-- Outcome of one review-handler invocation: HTTP status, the `error`
field when there is one, the contents written to the review-store and
order-store files (`none` when the corresponding file is not written), and
the review echoed on success. -/
structure ReviewResult where
  statusCode : Nat
  errorMsg : Option String
  savedReviews : Option ReviewStore
  savedOrders : Option OrderStore
  review : Option Review
  deriving Repr, DecidableEq

/-- `order.items && order.items[0]?.name`: the name of the first item when
the items field is present, the list non-empty and the name present. -/
def itemsFirstName (o : Order) : Option String :=
  match o.items with
  | none => none
  | some [] => none
  | some (it :: _) => it.name

/-- The review record the handler builds for an accepted submission:
`customerName` falls back from the caller to the order to `"Anonymous"`,
`productName` from the caller to the order's first item name to
`"Product"`, the comment is trimmed, and `verified` is always `true`. -/
def buildReview (rd : ReviewRequest) (order : Order) (rid : String)
    (now : String) : Review :=
  { id := rid
    orderId := rd.orderId.getD ""
    rating := rd.rating.getD 0
    comment := jsTrim (rd.comment.getD "")
    imageUrl := jsOrNone rd.imageUrl
    customerName := jsOrD rd.customerName (jsOrD order.customerName "Anonymous")
    productName := jsOrD rd.productName (jsOrD (itemsFirstName order) "Product")
    createdAt := now
    verified := true }

/-- The review handler (`src/netlify/functions/submit-review.ts`).  `m` is
the HTTP method, `rd` the parsed body, `ordersFile` / `reviewsFile` the
contents of the two store files (`none` when unreadable), `rid` the
generated review identifier and `now` the current time.  Mirrors the source
handler branch for branch; note that an unreadable order store falls back
to `{}` and an unreadable review store to `[]`. -/
def submitReviewHandler (m : String) (rd : ReviewRequest)
    (ordersFile : Option OrderStore) (reviewsFile : Option ReviewStore)
    (rid : String) (now : String) : ReviewResult :=
  if m = "OPTIONS" then
    { statusCode := 200, errorMsg := none, savedReviews := none
      savedOrders := none, review := none }
  else if m ≠ "POST" then
    { statusCode := 405, errorMsg := some "Method not allowed"
      savedReviews := none, savedOrders := none, review := none }
  else if !jsTruthy rd.orderId || !ratTruthy rd.rating || !jsTruthy rd.comment then
    { statusCode := 400
      errorMsg := some "Missing required fields: orderId, rating, comment"
      savedReviews := none, savedOrders := none, review := none }
  else if rd.rating.getD 0 < 1 ∨ rd.rating.getD 0 > 5 then
    { statusCode := 400, errorMsg := some "Rating must be between 1 and 5"
      savedReviews := none, savedOrders := none, review := none }
  else
    let orders := ordersFile.getD []
    let orderId := rd.orderId.getD ""
    match lookupOrder orders orderId with
    | none =>
      { statusCode := 404, errorMsg := some "Order not found"
        savedReviews := none, savedOrders := none, review := none }
    | some order =>
      if order.canReview = false ∧ order.status.map jsToLower ≠ some "delivered" then
        { statusCode := 400, errorMsg := some "Can only review delivered orders"
          savedReviews := none, savedOrders := none, review := none }
      else
        let review := buildReview rd order rid now
        let reviews := reviewsFile.getD []
        match reviews.find? (fun r => r.orderId == orderId) with
        | some _ =>
          { statusCode := 400
            errorMsg := some "Review already exists for this order"
            savedReviews := none, savedOrders := none, review := none }
        | none =>
          let reviews2 := reviews ++ [review]
          let savedOrders :=
            match lookupOrder orders orderId with
            | some _ =>
              some (setOrder orders orderId
                { order with hasReview := true, reviewId := some rid })
            | none => none
          { statusCode := 200
            errorMsg := none
            savedReviews := some reviews2
            savedOrders := savedOrders
            review := some review }

/-- No two reviews of the store share an `orderId`. -/
def uniqueOrderIds (rs : ReviewStore) : Prop :=
  rs.Pairwise fun a b => a.orderId ≠ b.orderId

/-! ### Lemmas about the order store -/

theorem lookupOrder_setOrder_self (os : OrderStore) (k : String) (o o' : Order)
    (h : lookupOrder os k = some o) :
    lookupOrder (setOrder os k o') k = some o' := by
  induction os with
  | nil => simp [lookupOrder] at h
  | cons hd rest ih =>
    obtain ⟨k₀, o₀⟩ := hd
    by_cases hk : k₀ = k
    · subst hk
      simp [lookupOrder, setOrder]
    · rw [lookupOrder, if_neg hk] at h
      simp only [setOrder, List.map_cons, lookupOrder] at ih ⊢
      simp only [hk, if_false, ite_false]
      exact ih h

theorem lookupOrder_setOrder_ne (os : OrderStore) (k k' : String) (o' : Order)
    (h : k' ≠ k) :
    lookupOrder (setOrder os k o') k' = lookupOrder os k' := by
  induction os with
  | nil => rfl
  | cons hd rest ih =>
    obtain ⟨k₀, o₀⟩ := hd
    simp only [setOrder, List.map_cons, lookupOrder] at ih ⊢
    by_cases hk : k₀ = k
    · subst hk
      simp only [if_pos rfl]
      rw [if_neg (fun hh => h hh.symm), if_neg (fun hh => h hh.symm)]
      exact ih
    · simp only [hk, if_false, ite_false]
      by_cases hk' : k₀ = k'
      · simp [hk']
      · rw [if_neg hk', if_neg hk']
        exact ih

/-! ### Shape lemmas for the webhook handler -/

theorem webhookHandler_found (p : WebhookPayload) (orders : OrderStore)
    (now : String) (o : Order)
    (h1 : jsTruthy p.order_number = true)
    (h2 : jsTruthy p.current_status = true)
    (h3 : lookupOrder orders (p.order_number.getD "") = some o) :
    webhookHandler "POST" p (some orders) now =
      { statusCode := 200
        errorMsg := none
        savedOrders :=
          some (setOrder orders (p.order_number.getD "")
            (webhookUpdateOrder p now o))
        order_number := some (p.order_number.getD "")
        new_status := some (p.current_status.getD "") } := by
  unfold webhookHandler
  simp [h1, h2, h3]

theorem webhookUpdateOrder_trackingUpdates (p : WebhookPayload) (now : String)
    (o : Order) :
    (webhookUpdateOrder p now o).trackingUpdates =
      some (o.trackingUpdates.getD [] ++ [newTrackingUpdate p]) := by
  unfold webhookUpdateOrder
  by_cases hd : jsToLower (p.current_status.getD "") = "delivered" <;>
    simp [hd]

theorem webhookUpdateOrder_delivered (p : WebhookPayload) (now : String)
    (o : Order) (hd : jsToLower (p.current_status.getD "") = "delivered") :
    (webhookUpdateOrder p now o).deliveredAt = some (jsOrD p.delivery_date now) ∧
    (webhookUpdateOrder p now o).canReview = true := by
  unfold webhookUpdateOrder
  simp [hd]

/-! ### Shape lemmas for the review handler -/

theorem submitReviewHandler_success (rd : ReviewRequest)
    (ordersFile : Option OrderStore) (reviewsFile : Option ReviewStore)
    (rid now : String) (order : Order)
    (h1 : jsTruthy rd.orderId = true)
    (h2 : ratTruthy rd.rating = true)
    (h3 : jsTruthy rd.comment = true)
    (h4 : ¬(rd.rating.getD 0 < 1 ∨ rd.rating.getD 0 > 5))
    (h5 : lookupOrder (ordersFile.getD []) (rd.orderId.getD "") = some order)
    (h6 : ¬(order.canReview = false ∧
           order.status.map jsToLower ≠ some "delivered"))
    (h7 : (reviewsFile.getD []).find?
            (fun r => r.orderId == rd.orderId.getD "") = none) :
    submitReviewHandler "POST" rd ordersFile reviewsFile rid now =
      { statusCode := 200
        errorMsg := none
        savedReviews :=
          some (reviewsFile.getD [] ++ [buildReview rd order rid now])
        savedOrders :=
          some (setOrder (ordersFile.getD []) (rd.orderId.getD "")
            { order with hasReview := true, reviewId := some rid })
        review := some (buildReview rd order rid now) } := by
  unfold submitReviewHandler
  simp [h1, h2, h3, h4, h5, h7]
  simpa using h6

theorem submitReviewHandler_dup (rd : ReviewRequest)
    (ordersFile : Option OrderStore) (reviewsFile : Option ReviewStore)
    (rid now : String) (order : Order) (r0 : Review)
    (h1 : jsTruthy rd.orderId = true)
    (h2 : ratTruthy rd.rating = true)
    (h3 : jsTruthy rd.comment = true)
    (h4 : ¬(rd.rating.getD 0 < 1 ∨ rd.rating.getD 0 > 5))
    (h5 : lookupOrder (ordersFile.getD []) (rd.orderId.getD "") = some order)
    (h6 : ¬(order.canReview = false ∧
           order.status.map jsToLower ≠ some "delivered"))
    (h7 : (reviewsFile.getD []).find?
            (fun r => r.orderId == rd.orderId.getD "") = some r0) :
    submitReviewHandler "POST" rd ordersFile reviewsFile rid now =
      { statusCode := 400
        errorMsg := some "Review already exists for this order"
        savedReviews := none
        savedOrders := none
        review := none } := by
  unfold submitReviewHandler
  simp [h1, h2, h3, h4, h5, h7]
  simpa using h6

theorem submitReviewHandler_order_not_found (rd : ReviewRequest)
    (ordersFile : Option OrderStore) (reviewsFile : Option ReviewStore)
    (rid now : String)
    (h1 : jsTruthy rd.orderId = true)
    (h2 : ratTruthy rd.rating = true)
    (h3 : jsTruthy rd.comment = true)
    (h4 : ¬(rd.rating.getD 0 < 1 ∨ rd.rating.getD 0 > 5))
    (h5 : lookupOrder (ordersFile.getD []) (rd.orderId.getD "") = none) :
    submitReviewHandler "POST" rd ordersFile reviewsFile rid now =
      { statusCode := 404
        errorMsg := some "Order not found"
        savedReviews := none
        savedOrders := none
        review := none } := by
  unfold submitReviewHandler
  simp [h1, h2, h3, h4, h5]

theorem submitReviewHandler_not_eligible (rd : ReviewRequest)
    (ordersFile : Option OrderStore) (reviewsFile : Option ReviewStore)
    (rid now : String) (order : Order)
    (h1 : jsTruthy rd.orderId = true)
    (h2 : ratTruthy rd.rating = true)
    (h3 : jsTruthy rd.comment = true)
    (h4 : ¬(rd.rating.getD 0 < 1 ∨ rd.rating.getD 0 > 5))
    (h5 : lookupOrder (ordersFile.getD []) (rd.orderId.getD "") = some order)
    (h6 : order.canReview = false ∧
          order.status.map jsToLower ≠ some "delivered") :
    submitReviewHandler "POST" rd ordersFile reviewsFile rid now =
      { statusCode := 400
        errorMsg := some "Can only review delivered orders"
        savedReviews := none
        savedOrders := none
        review := none } := by
  unfold submitReviewHandler
  simp [h1, h2, h3, h4, h5, h6]

/-! ### Writes happen only on success -/

theorem webhookHandler_write_only_200 (m : String) (p : WebhookPayload)
    (ordersFile : Option OrderStore) (now : String) :
    (webhookHandler m p ordersFile now).statusCode = 200 ∨
    (webhookHandler m p ordersFile now).savedOrders = none := by
  unfold webhookHandler
  dsimp only
  repeat' first
    | exact Or.inl rfl
    | exact Or.inr rfl
    | split

theorem submitReviewHandler_write_only_200 (m : String) (rd : ReviewRequest)
    (ordersFile : Option OrderStore) (reviewsFile : Option ReviewStore)
    (rid now : String) :
    (submitReviewHandler m rd ordersFile reviewsFile rid now).statusCode = 200 ∨
    ((submitReviewHandler m rd ordersFile reviewsFile rid now).savedReviews = none ∧
     (submitReviewHandler m rd ordersFile reviewsFile rid now).savedOrders = none) := by
  unfold submitReviewHandler
  dsimp only
  repeat' first
    | exact Or.inl rfl
    | exact Or.inr ⟨rfl, rfl⟩
    | split

theorem jsOrD_truthy (s d : String) (h : ¬s.isEmpty = true) :
    jsOrD (some s) d = s := by
  simp [jsOrD, h]

theorem jsOrD_falsy (a : Option String) (d : String)
    (h : a = none ∨ a = some "") : jsOrD a d = d := by
  rcases h with h | h <;> subst h <;> rfl

theorem jsOrD_le_jsOrD (a : Option String) (n1 n2 : String) (h : n1 ≤ n2) :
    jsOrD a n1 ≤ jsOrD a n2 := by
  cases a with
  | none => exact h
  | some s =>
    by_cases hs : s.isEmpty
    · simpa [jsOrD, hs] using h
    · simp [jsOrD, hs]

/-! ### Inversion: what a persisted write implies -/

theorem webhookHandler_savedOrders_shape (m : String) (p : WebhookPayload)
    (ordersFile : Option OrderStore) (now : String) (os2 : OrderStore)
    (h : (webhookHandler m p ordersFile now).savedOrders = some os2) :
    ∃ orders o, ordersFile = some orders ∧
      lookupOrder orders (p.order_number.getD "") = some o ∧
      os2 = setOrder orders (p.order_number.getD "")
              (webhookUpdateOrder p now o) := by
  unfold webhookHandler at h
  dsimp only at h
  split at h
  · exact absurd h (by simp)
  split at h
  · exact absurd h (by simp)
  split at h
  · exact absurd h (by simp)
  split at h
  · exact absurd h (by simp)
  rename_i orders
  split at h
  · exact absurd h (by simp)
  rename_i o ho
  refine ⟨orders, o, rfl, ho, ?_⟩
  simpa using h.symm

theorem submitReviewHandler_savedReviews_shape (m : String) (rd : ReviewRequest)
    (ordersFile : Option OrderStore) (reviewsFile : Option ReviewStore)
    (rid now : String) (rs : ReviewStore)
    (h : (submitReviewHandler m rd ordersFile reviewsFile rid now).savedReviews
          = some rs) :
    ∃ order, lookupOrder (ordersFile.getD []) (rd.orderId.getD "") = some order ∧
      (reviewsFile.getD []).find?
        (fun r => r.orderId == rd.orderId.getD "") = none ∧
      rs = reviewsFile.getD [] ++ [buildReview rd order rid now] := by
  unfold submitReviewHandler at h
  dsimp only at h
  split at h
  · exact absurd h (by simp)
  split at h
  · exact absurd h (by simp)
  split at h
  · exact absurd h (by simp)
  split at h
  · exact absurd h (by simp)
  split at h
  · exact absurd h (by simp)
  rename_i order ho
  split at h
  · exact absurd h (by simp)
  split at h
  · exact absurd h (by simp)
  rename_i hfind
  exact ⟨order, ho, hfind, by simpa using h.symm⟩

/-! ### Concrete fixtures -/

/-- A webhook payload with every field absent. -/
def emptyPayload : WebhookPayload :=
  { awb_number := none, order_number := none, current_status := none
    previous_status := none, updated_at := none, delivery_date := none
    remarks := none, location := none }

/-- An order with every optional field absent and both flags unset. -/
def blankOrder : Order :=
  { status := none, lastUpdated := none, trackingUpdates := none
    deliveredAt := none, canReview := false, hasReview := false
    reviewId := none, customerName := none, items := none }

/-- An order that has been shipped but not delivered. -/
def shippedOrder : Order :=
  { blankOrder with status := some "shipped" }

/-- An order whose status is `"Delivered"`. -/
def deliveredOrder : Order :=
  { blankOrder with status := some "Delivered" }

/-- A webhook payload reporting `ORD123` as shipped. -/
def shippedPayload : WebhookPayload :=
  { emptyPayload with
      order_number := some "ORD123"
      current_status := some "shipped" }

/-- A webhook payload reporting `ORD123` as delivered, without a delivery
date. -/
def deliveredPayload : WebhookPayload :=
  { emptyPayload with
      order_number := some "ORD123"
      current_status := some "Delivered" }

/-- A review request with every optional field absent. -/
def sampleReviewRequest : ReviewRequest :=
  { orderId := some "ORD123", rating := some 5, comment := some " Great "
    imageUrl := none, customerName := none, productName := none }

/-! ### Claim theorems -/

/-- C1: for every webhook event with a non-empty order reference and a
non-empty new status whose reference names an order present in a readable
order store, processing succeeds (HTTP 200, a store write happens) and the
referenced order's `trackingUpdates` sequence afterwards is exactly one
longer than before, with every previously present entry unchanged in value
and position. -/
theorem webhook_appends_exactly_one_tracking_update
    (p : WebhookPayload) (orders : OrderStore) (now : String) (o : Order)
    (h1 : jsTruthy p.order_number = true)
    (h2 : jsTruthy p.current_status = true)
    (h3 : lookupOrder orders (p.order_number.getD "") = some o) :
    ∃ os2 o2,
      (webhookHandler "POST" p (some orders) now).statusCode = 200 ∧
      (webhookHandler "POST" p (some orders) now).savedOrders = some os2 ∧
      lookupOrder os2 (p.order_number.getD "") = some o2 ∧
      (o2.trackingUpdates.getD []).length
        = (o.trackingUpdates.getD []).length + 1 ∧
      ∀ i : Nat, i < (o.trackingUpdates.getD []).length →
        (o2.trackingUpdates.getD [])[i]? = (o.trackingUpdates.getD [])[i]? := by
  have hfound := webhookHandler_found p orders now o h1 h2 h3
  have htu := webhookUpdateOrder_trackingUpdates p now o
  refine ⟨setOrder orders (p.order_number.getD "") (webhookUpdateOrder p now o),
    webhookUpdateOrder p now o, ?_, ?_, ?_, ?_, ?_⟩
  · rw [hfound]
  · rw [hfound]
  · exact lookupOrder_setOrder_self _ _ _ _ h3
  · rw [htu]
    simp
  · intro i hi
    rw [htu]
    simpa using List.getElem?_append_left hi

/-- Witness for C1: a concrete shipped-status event for `ORD123`. -/
theorem webhook_appends_exactly_one_tracking_update_witness :
    ∃ os2 o2,
      (webhookHandler "POST" shippedPayload
        (some [("ORD123", shippedOrder)]) "T1").statusCode = 200 ∧
      (webhookHandler "POST" shippedPayload
        (some [("ORD123", shippedOrder)]) "T1").savedOrders = some os2 ∧
      lookupOrder os2 (shippedPayload.order_number.getD "") = some o2 ∧
      (o2.trackingUpdates.getD []).length
        = (shippedOrder.trackingUpdates.getD []).length + 1 ∧
      ∀ i : Nat, i < (shippedOrder.trackingUpdates.getD []).length →
        (o2.trackingUpdates.getD [])[i]?
          = (shippedOrder.trackingUpdates.getD [])[i]? :=
  webhook_appends_exactly_one_tracking_update shippedPayload
    [("ORD123", shippedOrder)] "T1" shippedOrder
    (by decide) (by decide) (by decide)

/-- C2: review-handler invocations keep the review store free of duplicate
`orderId`s: starting from a store with at most one review per `orderId`,
any store the handler writes again has at most one review per `orderId`;
and on the validated path, when a review for the request's `orderId` is
already present the handler answers 400 "Review already exists for this
order" and writes neither store (the duplicate check precedes insertion). -/
theorem review_store_at_most_one_review_per_order
    (m : String) (rd : ReviewRequest) (ordersFile : Option OrderStore)
    (reviewsFile : Option ReviewStore) (rid now : String)
    (hU : uniqueOrderIds (reviewsFile.getD [])) :
    (∀ rs, (submitReviewHandler m rd ordersFile reviewsFile rid now).savedReviews
        = some rs → uniqueOrderIds rs)
    ∧ (∀ order,
        jsTruthy rd.orderId = true → ratTruthy rd.rating = true →
        jsTruthy rd.comment = true →
        ¬(rd.rating.getD 0 < 1 ∨ rd.rating.getD 0 > 5) →
        lookupOrder (ordersFile.getD []) (rd.orderId.getD "") = some order →
        ¬(order.canReview = false ∧
          order.status.map jsToLower ≠ some "delivered") →
        (∃ r0 ∈ reviewsFile.getD [], r0.orderId = rd.orderId.getD "") →
        submitReviewHandler "POST" rd ordersFile reviewsFile rid now =
          { statusCode := 400
            errorMsg := some "Review already exists for this order"
            savedReviews := none, savedOrders := none, review := none }) := by
  constructor
  · intro rs hrs
    obtain ⟨order, ho, hfind, hrs⟩ :=
      submitReviewHandler_savedReviews_shape m rd ordersFile reviewsFile
        rid now rs hrs
    subst hrs
    unfold uniqueOrderIds at hU ⊢
    rw [List.pairwise_append]
    refine ⟨hU, by simp, ?_⟩
    intro a ha b hb
    have hb' : b = buildReview rd order rid now := by simpa using hb
    subst hb'
    have hne := List.find?_eq_none.mp hfind a ha
    simp only [beq_iff_eq] at hne
    simpa [buildReview] using hne
  · intro order h1 h2 h3 h4 h5 h6 hex
    obtain ⟨r0, hr0, hid⟩ := hex
    have hsome : ((reviewsFile.getD []).find?
        (fun r => r.orderId == rd.orderId.getD "")).isSome := by
      rw [List.find?_isSome]
      exact ⟨r0, hr0, by simp [hid]⟩
    obtain ⟨r1, hr1⟩ := Option.isSome_iff_exists.mp hsome
    exact submitReviewHandler_dup rd ordersFile reviewsFile rid now order r1
      h1 h2 h3 h4 h5 h6 hr1

/-- Witness for C2: a concrete request against an empty review store. -/
theorem review_store_at_most_one_review_per_order_witness :
    (∀ rs, (submitReviewHandler "POST" sampleReviewRequest
        (some [("ORD123", deliveredOrder)]) (some []) "REV1" "T1").savedReviews
        = some rs → uniqueOrderIds rs)
    ∧ (∀ order,
        jsTruthy sampleReviewRequest.orderId = true →
        ratTruthy sampleReviewRequest.rating = true →
        jsTruthy sampleReviewRequest.comment = true →
        ¬(sampleReviewRequest.rating.getD 0 < 1 ∨
          sampleReviewRequest.rating.getD 0 > 5) →
        lookupOrder ((some [("ORD123", deliveredOrder)] :
            Option OrderStore).getD [])
          (sampleReviewRequest.orderId.getD "") = some order →
        ¬(order.canReview = false ∧
          order.status.map jsToLower ≠ some "delivered") →
        (∃ r0 ∈ ((some [] : Option ReviewStore).getD []),
          r0.orderId = sampleReviewRequest.orderId.getD "") →
        submitReviewHandler "POST" sampleReviewRequest
            (some [("ORD123", deliveredOrder)]) (some []) "REV1" "T1" =
          { statusCode := 400
            errorMsg := some "Review already exists for this order"
            savedReviews := none, savedOrders := none, review := none }) :=
  review_store_at_most_one_review_per_order "POST" sampleReviewRequest
    (some [("ORD123", deliveredOrder)]) (some []) "REV1" "T1"
    (by simp [uniqueOrderIds])

/-- C3 counterexample: a request whose rating is 5/2 passes the
required-fields check, 5/2 is not an integer and lies inside [1, 5], yet
the handler accepts the submission (HTTP 200 and no error) instead of
rejecting it: the source checks only `rating < 1 || rating > 5` and never
integrality. -/
theorem review_noninteger_rating_accepted :
    (mkRat 5 2).isInt = false ∧
    1 ≤ mkRat 5 2 ∧ mkRat 5 2 ≤ 5 ∧
    (submitReviewHandler "POST"
      { sampleReviewRequest with rating := some (mkRat 5 2) }
      (some [("ORD123", deliveredOrder)]) (some []) "REV1" "T1").statusCode
      = 200 ∧
    (submitReviewHandler "POST"
      { sampleReviewRequest with rating := some (mkRat 5 2) }
      (some [("ORD123", deliveredOrder)]) (some []) "REV1" "T1").errorMsg
      = none := by
  decide

/-- C3 (amended): for every review request that passes the required-fields
check, the handler rejects with the explicit range message if and only if
the rating is numerically below 1 or above 5.  Integrality is not checked,
so a non-integer rating inside the range (such as 5/2) passes this check,
while 0 and 6 fail it and the boundaries 1 and 5 pass it. -/
theorem review_rating_range_error_iff
    (rd : ReviewRequest) (ordersFile : Option OrderStore)
    (reviewsFile : Option ReviewStore) (rid now : String)
    (h1 : jsTruthy rd.orderId = true)
    (h2 : ratTruthy rd.rating = true)
    (h3 : jsTruthy rd.comment = true) :
    ((submitReviewHandler "POST" rd ordersFile reviewsFile rid now).errorMsg
        = some "Rating must be between 1 and 5")
      ↔ (rd.rating.getD 0 < 1 ∨ rd.rating.getD 0 > 5) := by
  by_cases hr : rd.rating.getD 0 < 1 ∨ rd.rating.getD 0 > 5
  · unfold submitReviewHandler
    simp [h1, h2, h3, hr]
  · constructor
    · intro hmsg
      exfalso
      cases hlo : lookupOrder (ordersFile.getD []) (rd.orderId.getD "") with
      | none =>
        rw [submitReviewHandler_order_not_found rd ordersFile reviewsFile
          rid now h1 h2 h3 hr hlo] at hmsg
        simp at hmsg
      | some order =>
        by_cases he : order.canReview = false ∧
            order.status.map jsToLower ≠ some "delivered"
        · rw [submitReviewHandler_not_eligible rd ordersFile reviewsFile
            rid now order h1 h2 h3 hr hlo he] at hmsg
          simp at hmsg
        · cases hf : (reviewsFile.getD []).find?
              (fun r => r.orderId == rd.orderId.getD "") with
          | none =>
            rw [submitReviewHandler_success rd ordersFile reviewsFile
              rid now order h1 h2 h3 hr hlo he hf] at hmsg
            simp at hmsg
          | some r0 =>
            rw [submitReviewHandler_dup rd ordersFile reviewsFile
              rid now order r0 h1 h2 h3 hr hlo he hf] at hmsg
            simp at hmsg
    · exact fun h => absurd h hr

/-- Witness for C3 (amended): rating 6 produces exactly the range error. -/
theorem review_rating_range_error_iff_witness :
    ((submitReviewHandler "POST" { sampleReviewRequest with rating := some 6 }
        (some [("ORD123", deliveredOrder)]) (some []) "REV1" "T1").errorMsg
        = some "Rating must be between 1 and 5")
      ↔ (({ sampleReviewRequest with rating := some 6 } :
            ReviewRequest).rating.getD 0 < 1 ∨
         ({ sampleReviewRequest with rating := some 6 } :
            ReviewRequest).rating.getD 0 > 5) :=
  review_rating_range_error_iff { sampleReviewRequest with rating := some 6 }
    (some [("ORD123", deliveredOrder)]) (some []) "REV1" "T1"
    (by decide) (by decide) (by decide)

/-- C4: a webhook event whose new status lower-cases to "delivered",
applied to an existing order, sets `deliveredAt` to the event's delivery
date (or to the current time when that field is absent; an empty-string
delivery date is falsy in JavaScript and also falls back to the clock) and
sets `canReview` to true; applying the same event twice in sequence, with
the clock not running backwards, yields `canReview = true` and a
non-decreasing `deliveredAt` across the two applications. -/
theorem webhook_delivered_sets_eligibility_idempotent
    (p : WebhookPayload) (orders : OrderStore) (now1 now2 : String) (o : Order)
    (h1 : jsTruthy p.order_number = true)
    (h2 : jsTruthy p.current_status = true)
    (h3 : lookupOrder orders (p.order_number.getD "") = some o)
    (hd : jsToLower (p.current_status.getD "") = "delivered")
    (hnow : now1 ≤ now2) :
    ∃ os1 o1 os2 o2,
      (webhookHandler "POST" p (some orders) now1).savedOrders = some os1 ∧
      lookupOrder os1 (p.order_number.getD "") = some o1 ∧
      (∀ d, p.delivery_date = some d → ¬d.isEmpty = true →
        o1.deliveredAt = some d) ∧
      (p.delivery_date = none → o1.deliveredAt = some now1) ∧
      o1.canReview = true ∧
      (webhookHandler "POST" p (some os1) now2).savedOrders = some os2 ∧
      lookupOrder os2 (p.order_number.getD "") = some o2 ∧
      o2.canReview = true ∧
      ∀ d1 d2, o1.deliveredAt = some d1 → o2.deliveredAt = some d2 →
        d1 ≤ d2 := by
  have hf1 := webhookHandler_found p orders now1 o h1 h2 h3
  have hl1 : lookupOrder
      (setOrder orders (p.order_number.getD "") (webhookUpdateOrder p now1 o))
      (p.order_number.getD "") = some (webhookUpdateOrder p now1 o) :=
    lookupOrder_setOrder_self _ _ _ _ h3
  have hf2 := webhookHandler_found p
    (setOrder orders (p.order_number.getD "") (webhookUpdateOrder p now1 o))
    now2 (webhookUpdateOrder p now1 o) h1 h2 hl1
  have hl2 := lookupOrder_setOrder_self
    (setOrder orders (p.order_number.getD "") (webhookUpdateOrder p now1 o))
    (p.order_number.getD "") (webhookUpdateOrder p now1 o)
    (webhookUpdateOrder p now2 (webhookUpdateOrder p now1 o)) hl1
  obtain ⟨hda1, hcr1⟩ := webhookUpdateOrder_delivered p now1 o hd
  obtain ⟨hda2, hcr2⟩ :=
    webhookUpdateOrder_delivered p now2 (webhookUpdateOrder p now1 o) hd
  refine ⟨_, webhookUpdateOrder p now1 o, _,
    webhookUpdateOrder p now2 (webhookUpdateOrder p now1 o),
    by rw [hf1], hl1, ?_, ?_, hcr1, by rw [hf2], hl2, hcr2, ?_⟩
  · intro d hdd hne
    rw [hda1, hdd]
    simp [jsOrD, hne]
  · intro hdd
    rw [hda1, hdd]
    rfl
  · intro d1 d2 h1' h2'
    rw [hda1] at h1'
    rw [hda2] at h2'
    injection h1' with e1
    injection h2' with e2
    subst e1
    subst e2
    exact jsOrD_le_jsOrD _ _ _ hnow

/-- Witness for C4: a concrete "Delivered" event without a delivery date,
applied twice at the same clock reading. -/
theorem webhook_delivered_sets_eligibility_idempotent_witness :
    ∃ os1 o1 os2 o2,
      (webhookHandler "POST" deliveredPayload
        (some [("ORD123", shippedOrder)]) "T1").savedOrders = some os1 ∧
      lookupOrder os1 (deliveredPayload.order_number.getD "") = some o1 ∧
      (∀ d, deliveredPayload.delivery_date = some d → ¬d.isEmpty = true →
        o1.deliveredAt = some d) ∧
      (deliveredPayload.delivery_date = none → o1.deliveredAt = some "T1") ∧
      o1.canReview = true ∧
      (webhookHandler "POST" deliveredPayload (some os1) "T1").savedOrders
        = some os2 ∧
      lookupOrder os2 (deliveredPayload.order_number.getD "") = some o2 ∧
      o2.canReview = true ∧
      ∀ d1 d2, o1.deliveredAt = some d1 → o2.deliveredAt = some d2 →
        d1 ≤ d2 :=
  webhook_delivered_sets_eligibility_idempotent deliveredPayload
    [("ORD123", shippedOrder)] "T1" "T1" shippedOrder
    (by decide) (by decide) (by decide) (by decide) (le_refl "T1")

/-- C5: on the validated path (required fields present, rating in range),
for a review request referencing an order present in the order store: when
the order neither has `canReview` set nor a status that lower-cases to
"delivered", the handler answers 400 "Can only review delivered orders"
and writes neither store; when either condition holds, the check passes
and that error is never produced. -/
theorem review_requires_delivered_or_canReview
    (rd : ReviewRequest) (ordersFile : Option OrderStore)
    (reviewsFile : Option ReviewStore) (rid now : String) (order : Order)
    (h1 : jsTruthy rd.orderId = true)
    (h2 : ratTruthy rd.rating = true)
    (h3 : jsTruthy rd.comment = true)
    (h4 : ¬(rd.rating.getD 0 < 1 ∨ rd.rating.getD 0 > 5))
    (h5 : lookupOrder (ordersFile.getD []) (rd.orderId.getD "") = some order) :
    ((order.canReview = false ∧
        order.status.map jsToLower ≠ some "delivered") →
      submitReviewHandler "POST" rd ordersFile reviewsFile rid now =
        { statusCode := 400
          errorMsg := some "Can only review delivered orders"
          savedReviews := none, savedOrders := none, review := none })
    ∧ ((order.canReview = true ∨
        order.status.map jsToLower = some "delivered") →
      (submitReviewHandler "POST" rd ordersFile reviewsFile rid now).errorMsg
        ≠ some "Can only review delivered orders") := by
  constructor
  · intro he
    exact submitReviewHandler_not_eligible rd ordersFile reviewsFile rid now
      order h1 h2 h3 h4 h5 he
  · intro he
    have hne : ¬(order.canReview = false ∧
        order.status.map jsToLower ≠ some "delivered") := by
      rintro ⟨hcr, hst⟩
      rcases he with h | h
      · rw [h] at hcr
        simp at hcr
      · exact hst h
    cases hf : (reviewsFile.getD []).find?
        (fun r => r.orderId == rd.orderId.getD "") with
    | none =>
      rw [submitReviewHandler_success rd ordersFile reviewsFile rid now order
        h1 h2 h3 h4 h5 hne hf]
      simp
    | some r0 =>
      rw [submitReviewHandler_dup rd ordersFile reviewsFile rid now order r0
        h1 h2 h3 h4 h5 hne hf]
      simp

/-- Witness for C5: a concrete request against a merely shipped order. -/
theorem review_requires_delivered_or_canReview_witness :
    ((shippedOrder.canReview = false ∧
        shippedOrder.status.map jsToLower ≠ some "delivered") →
      submitReviewHandler "POST" sampleReviewRequest
          (some [("ORD123", shippedOrder)]) (some []) "REV1" "T1" =
        { statusCode := 400
          errorMsg := some "Can only review delivered orders"
          savedReviews := none, savedOrders := none, review := none })
    ∧ ((shippedOrder.canReview = true ∨
        shippedOrder.status.map jsToLower = some "delivered") →
      (submitReviewHandler "POST" sampleReviewRequest
          (some [("ORD123", shippedOrder)]) (some []) "REV1" "T1").errorMsg
        ≠ some "Can only review delivered orders") :=
  review_requires_delivered_or_canReview sampleReviewRequest
    (some [("ORD123", shippedOrder)]) (some []) "REV1" "T1" shippedOrder
    (by decide) (by decide) (by decide) (by decide) (by decide)

/-- C6: when the order store cannot be read the two handlers diverge: the
webhook handler (on a field-complete POST) fails immediately with 404
"Orders file not found", while the review handler (on a validated POST)
continues with an empty store and fails at the order-existence check with
404 "Order not found" — not with a store-unavailable error. -/
theorem store_unreadable_handlers_diverge
    (p : WebhookPayload) (now : String)
    (h1 : jsTruthy p.order_number = true)
    (h2 : jsTruthy p.current_status = true)
    (rd : ReviewRequest) (reviewsFile : Option ReviewStore)
    (rid now2 : String)
    (h3 : jsTruthy rd.orderId = true)
    (h4 : ratTruthy rd.rating = true)
    (h5 : jsTruthy rd.comment = true)
    (h6 : ¬(rd.rating.getD 0 < 1 ∨ rd.rating.getD 0 > 5)) :
    (webhookHandler "POST" p none now).statusCode = 404 ∧
    (webhookHandler "POST" p none now).errorMsg
      = some "Orders file not found" ∧
    (submitReviewHandler "POST" rd none reviewsFile rid now2).statusCode
      = 404 ∧
    (submitReviewHandler "POST" rd none reviewsFile rid now2).errorMsg
      = some "Order not found" := by
  have hw : webhookHandler "POST" p none now =
      { statusCode := 404, errorMsg := some "Orders file not found"
        savedOrders := none, order_number := none, new_status := none } := by
    unfold webhookHandler
    simp [h1, h2]
  have hr : submitReviewHandler "POST" rd none reviewsFile rid now2 =
      { statusCode := 404, errorMsg := some "Order not found"
        savedReviews := none, savedOrders := none, review := none } :=
    submitReviewHandler_order_not_found rd none reviewsFile rid now2
      h3 h4 h5 h6 rfl
  rw [hw, hr]
  exact ⟨rfl, rfl, rfl, rfl⟩

/-- Witness for C6: concrete field-complete requests with both store files
unreadable. -/
theorem store_unreadable_handlers_diverge_witness :
    (webhookHandler "POST" shippedPayload none "T1").statusCode = 404 ∧
    (webhookHandler "POST" shippedPayload none "T1").errorMsg
      = some "Orders file not found" ∧
    (submitReviewHandler "POST" sampleReviewRequest none (some [])
        "REV1" "T1").statusCode = 404 ∧
    (submitReviewHandler "POST" sampleReviewRequest none (some [])
        "REV1" "T1").errorMsg = some "Order not found" :=
  store_unreadable_handlers_diverge shippedPayload "T1" (by decide) (by decide)
    sampleReviewRequest (some []) "REV1" "T1"
    (by decide) (by decide) (by decide) (by decide)

/-- C7: every accepted review is stored with `verified = true`, the
submitted comment trimmed of surrounding whitespace, `customerName` equal
to the caller's value when truthy, else the order's `customerName` when
truthy, else "Anonymous", and `productName` equal to the caller's value
when truthy, else the order's first item name when truthy, else "Product"
(JavaScript `||` treats an empty string like absence). -/
theorem review_record_verified_trimmed_defaults
    (rd : ReviewRequest) (ordersFile : Option OrderStore)
    (reviewsFile : Option ReviewStore) (rid now : String) (order : Order)
    (h1 : jsTruthy rd.orderId = true)
    (h2 : ratTruthy rd.rating = true)
    (h3 : jsTruthy rd.comment = true)
    (h4 : ¬(rd.rating.getD 0 < 1 ∨ rd.rating.getD 0 > 5))
    (h5 : lookupOrder (ordersFile.getD []) (rd.orderId.getD "") = some order)
    (h6 : ¬(order.canReview = false ∧
           order.status.map jsToLower ≠ some "delivered"))
    (h7 : (reviewsFile.getD []).find?
            (fun r => r.orderId == rd.orderId.getD "") = none) :
    ∃ r,
      (submitReviewHandler "POST" rd ordersFile reviewsFile rid now).review
        = some r ∧
      (submitReviewHandler "POST" rd ordersFile reviewsFile rid
        now).statusCode = 200 ∧
      r.verified = true ∧
      (∀ c, rd.comment = some c → r.comment = jsTrim c) ∧
      (∀ c, rd.customerName = some c → ¬c.isEmpty = true →
        r.customerName = c) ∧
      ((rd.customerName = none ∨ rd.customerName = some "") →
        ∀ n, order.customerName = some n → ¬n.isEmpty = true →
          r.customerName = n) ∧
      ((rd.customerName = none ∨ rd.customerName = some "") →
        (order.customerName = none ∨ order.customerName = some "") →
        r.customerName = "Anonymous") ∧
      (∀ c, rd.productName = some c → ¬c.isEmpty = true →
        r.productName = c) ∧
      ((rd.productName = none ∨ rd.productName = some "") →
        ∀ n, itemsFirstName order = some n → ¬n.isEmpty = true →
          r.productName = n) ∧
      ((rd.productName = none ∨ rd.productName = some "") →
        (itemsFirstName order = none ∨ itemsFirstName order = some "") →
        r.productName = "Product") := by
  have hs := submitReviewHandler_success rd ordersFile reviewsFile rid now
    order h1 h2 h3 h4 h5 h6 h7
  refine ⟨buildReview rd order rid now, by rw [hs], by rw [hs], rfl,
    ?_, ?_, ?_, ?_, ?_, ?_, ?_⟩
  · intro c hc
    simp [buildReview, hc]
  · intro c hc hne
    simp [buildReview, hc, jsOrD, hne]
  · intro hc n hn hne
    simp only [buildReview, jsOrD_falsy _ _ hc, hn]
    exact jsOrD_truthy _ _ hne
  · intro hc ho
    simp only [buildReview, jsOrD_falsy _ _ hc, jsOrD_falsy _ _ ho]
  · intro c hc hne
    simp [buildReview, hc, jsOrD, hne]
  · intro hc n hn hne
    simp only [buildReview, jsOrD_falsy _ _ hc, hn]
    exact jsOrD_truthy _ _ hne
  · intro hc ho
    simp only [buildReview, jsOrD_falsy _ _ hc, jsOrD_falsy _ _ ho]

/-- Witness for C7: a concrete accepted review with neither caller-supplied
nor order-derived names, so both defaults apply. -/
theorem review_record_verified_trimmed_defaults_witness :
    ∃ r,
      (submitReviewHandler "POST" sampleReviewRequest
        (some [("ORD123", deliveredOrder)]) (some []) "REV1" "T1").review
        = some r ∧
      (submitReviewHandler "POST" sampleReviewRequest
        (some [("ORD123", deliveredOrder)]) (some []) "REV1"
        "T1").statusCode = 200 ∧
      r.verified = true ∧
      (∀ c, sampleReviewRequest.comment = some c → r.comment = jsTrim c) ∧
      (∀ c, sampleReviewRequest.customerName = some c → ¬c.isEmpty = true →
        r.customerName = c) ∧
      ((sampleReviewRequest.customerName = none ∨
        sampleReviewRequest.customerName = some "") →
        ∀ n, deliveredOrder.customerName = some n → ¬n.isEmpty = true →
          r.customerName = n) ∧
      ((sampleReviewRequest.customerName = none ∨
        sampleReviewRequest.customerName = some "") →
        (deliveredOrder.customerName = none ∨
         deliveredOrder.customerName = some "") →
        r.customerName = "Anonymous") ∧
      (∀ c, sampleReviewRequest.productName = some c → ¬c.isEmpty = true →
        r.productName = c) ∧
      ((sampleReviewRequest.productName = none ∨
        sampleReviewRequest.productName = some "") →
        ∀ n, itemsFirstName deliveredOrder = some n → ¬n.isEmpty = true →
          r.productName = n) ∧
      ((sampleReviewRequest.productName = none ∨
        sampleReviewRequest.productName = some "") →
        (itemsFirstName deliveredOrder = none ∨
         itemsFirstName deliveredOrder = some "") →
        r.productName = "Product") :=
  review_record_verified_trimmed_defaults sampleReviewRequest
    (some [("ORD123", deliveredOrder)]) (some []) "REV1" "T1" deliveredOrder
    (by decide) (by decide) (by decide) (by decide) (by decide) (by decide)
    (by decide)

/-- C8: whenever a webhook invocation persists the order store, the
persisted store maps every key other than the event's order reference to
exactly the record it held before, and the referenced key to the single
mutated record; in the model the one `savedOrders` document is the only
effect of a successful invocation. -/
theorem webhook_success_frame
    (m : String) (p : WebhookPayload) (ordersFile : Option OrderStore)
    (now : String) (os2 : OrderStore)
    (h : (webhookHandler m p ordersFile now).savedOrders = some os2) :
    (∀ k, k ≠ p.order_number.getD "" →
      lookupOrder os2 k = lookupOrder (ordersFile.getD []) k)
    ∧ ∃ o, lookupOrder (ordersFile.getD []) (p.order_number.getD "")
          = some o ∧
        lookupOrder os2 (p.order_number.getD "")
          = some (webhookUpdateOrder p now o) := by
  obtain ⟨orders, o, hof, ho, hos⟩ :=
    webhookHandler_savedOrders_shape m p ordersFile now os2 h
  subst hof
  subst hos
  constructor
  · intro k hk
    simpa using lookupOrder_setOrder_ne orders (p.order_number.getD "") k _ hk
  · exact ⟨o, by simpa using ho, lookupOrder_setOrder_self _ _ _ _ ho⟩

/-- Witness for C8: a concrete two-order store in which only `ORD123` is
touched. -/
theorem webhook_success_frame_witness :
    (∀ k, k ≠ shippedPayload.order_number.getD "" →
      lookupOrder (setOrder [("ORD123", shippedOrder), ("ORD999", blankOrder)]
          "ORD123" (webhookUpdateOrder shippedPayload "T1" shippedOrder)) k
        = lookupOrder ((some [("ORD123", shippedOrder),
            ("ORD999", blankOrder)] : Option OrderStore).getD []) k)
    ∧ ∃ o, lookupOrder ((some [("ORD123", shippedOrder),
          ("ORD999", blankOrder)] : Option OrderStore).getD [])
          (shippedPayload.order_number.getD "") = some o ∧
        lookupOrder (setOrder [("ORD123", shippedOrder),
            ("ORD999", blankOrder)] "ORD123"
            (webhookUpdateOrder shippedPayload "T1" shippedOrder))
          (shippedPayload.order_number.getD "")
          = some (webhookUpdateOrder shippedPayload "T1" o) :=
  webhook_success_frame "POST" shippedPayload
    (some [("ORD123", shippedOrder), ("ORD999", blankOrder)]) "T1"
    (setOrder [("ORD123", shippedOrder), ("ORD999", blankOrder)] "ORD123"
      (webhookUpdateOrder shippedPayload "T1" shippedOrder))
    (by decide)

/-- C9: whenever either handler answers with status 400, 404 or 405, no
store file is written: the webhook handler performs no order-store write
and the review handler performs neither its review-store nor its
order-store write. -/
theorem no_store_write_on_error_status
    (m : String) (p : WebhookPayload) (ordersFile : Option OrderStore)
    (now : String) (m2 : String) (rd : ReviewRequest)
    (ordersFile2 : Option OrderStore) (reviewsFile : Option ReviewStore)
    (rid now2 : String) :
    ((webhookHandler m p ordersFile now).statusCode = 400 ∨
     (webhookHandler m p ordersFile now).statusCode = 404 ∨
     (webhookHandler m p ordersFile now).statusCode = 405 →
      (webhookHandler m p ordersFile now).savedOrders = none)
    ∧ ((submitReviewHandler m2 rd ordersFile2 reviewsFile rid
          now2).statusCode = 400 ∨
       (submitReviewHandler m2 rd ordersFile2 reviewsFile rid
          now2).statusCode = 404 ∨
       (submitReviewHandler m2 rd ordersFile2 reviewsFile rid
          now2).statusCode = 405 →
      (submitReviewHandler m2 rd ordersFile2 reviewsFile rid
          now2).savedReviews = none ∧
      (submitReviewHandler m2 rd ordersFile2 reviewsFile rid
          now2).savedOrders = none) := by
  constructor
  · intro h
    rcases webhookHandler_write_only_200 m p ordersFile now with h200 | hn
    · rcases h with h | h | h <;> omega
    · exact hn
  · intro h
    rcases submitReviewHandler_write_only_200 m2 rd ordersFile2 reviewsFile
      rid now2 with h200 | hn
    · rcases h with h | h | h <;> omega
    · exact hn

/-- Witness for C9: a non-POST method on each handler (status 405). -/
theorem no_store_write_on_error_status_witness :
    (webhookHandler "GET" emptyPayload none "T1").savedOrders = none ∧
    (submitReviewHandler "GET" sampleReviewRequest none none
        "REV1" "T1").savedReviews = none ∧
    (submitReviewHandler "GET" sampleReviewRequest none none
        "REV1" "T1").savedOrders = none :=
  ⟨(no_store_write_on_error_status "GET" emptyPayload none "T1" "GET"
      sampleReviewRequest none none "REV1" "T1").1
      (Or.inr (Or.inr (by decide))),
   (no_store_write_on_error_status "GET" emptyPayload none "T1" "GET"
      sampleReviewRequest none none "REV1" "T1").2
      (Or.inr (Or.inr (by decide))) |>.1,
   (no_store_write_on_error_status "GET" emptyPayload none "T1" "GET"
      sampleReviewRequest none none "REV1" "T1").2
      (Or.inr (Or.inr (by decide))) |>.2⟩

/-- C10: a webhook event for an existing order whose record has no
`trackingUpdates` field at all does not fail: the handler initialises the
sequence to `[]` before appending, so the persisted order afterwards holds
a `trackingUpdates` sequence of length exactly one. -/
theorem webhook_initialises_missing_trackingUpdates
    (p : WebhookPayload) (orders : OrderStore) (now : String) (o : Order)
    (h1 : jsTruthy p.order_number = true)
    (h2 : jsTruthy p.current_status = true)
    (h3 : lookupOrder orders (p.order_number.getD "") = some o)
    (hn : o.trackingUpdates = none) :
    ∃ os2 o2,
      (webhookHandler "POST" p (some orders) now).statusCode = 200 ∧
      (webhookHandler "POST" p (some orders) now).savedOrders = some os2 ∧
      lookupOrder os2 (p.order_number.getD "") = some o2 ∧
      o2.trackingUpdates = some [newTrackingUpdate p] ∧
      (o2.trackingUpdates.getD []).length = 1 := by
  have hfound := webhookHandler_found p orders now o h1 h2 h3
  have htu := webhookUpdateOrder_trackingUpdates p now o
  rw [hn] at htu
  simp only [Option.getD_none, List.nil_append] at htu
  refine ⟨setOrder orders (p.order_number.getD "")
      (webhookUpdateOrder p now o), webhookUpdateOrder p now o,
    by rw [hfound], by rw [hfound],
    lookupOrder_setOrder_self _ _ _ _ h3, htu, ?_⟩
  rw [htu]
  rfl

/-- Witness for C10: a concrete order record carrying no `trackingUpdates`
field. -/
theorem webhook_initialises_missing_trackingUpdates_witness :
    ∃ os2 o2,
      (webhookHandler "POST" shippedPayload
        (some [("ORD123", blankOrder)]) "T1").statusCode = 200 ∧
      (webhookHandler "POST" shippedPayload
        (some [("ORD123", blankOrder)]) "T1").savedOrders = some os2 ∧
      lookupOrder os2 (shippedPayload.order_number.getD "") = some o2 ∧
      o2.trackingUpdates = some [newTrackingUpdate shippedPayload] ∧
      (o2.trackingUpdates.getD []).length = 1 :=
  webhook_initialises_missing_trackingUpdates shippedPayload
    [("ORD123", blankOrder)] "T1" blankOrder
    (by decide) (by decide) (by decide) (by decide)

end MM
